import Mathlib

/-!
# Verification of the falai-app generation dispatch and UI flow

Shallow embedding of the two source modules of the repository:

* `src/services/generate-image.ts` (`generateImage`): the request dispatcher
  with its three-signal balance-exhaustion detection and key-rotation retry;
* `src/components/ImageGenerator.vue` (`ensureValidNumImages`, the loras
  filter, and the per-image persistence records of `handleGenerate`).

The `api-key-manager` module (`handleBalanceExhaustedError`) is not among the
sources; where a statement depends on it, a definition modelled from the
specification is used and marked as such.

External effects are modelled as explicit parameters: the outbound
`fal.subscribe` call is a function from the credential (and model id and
parameter bag) to a result or a thrown error; `JSON.parse` on the extracted
brace block is a function returning the object's `detail` string when parsing
succeeds; `localStorage` and the rotation state are threaded as explicit
state; the recursion of the dispatcher is paced by a fuel argument (`none`
means the fuel ran out, never an observable outcome of the code).
-/

set_option autoImplicit false

namespace FalaiApp

/-! ## String utilities (JS `String.prototype.includes`, `.trim`, regex scan) -/

/-- Boolean prefix test on character lists. -/
def isPrefixChars : List Char → List Char → Bool
  | [], _ => true
  | _ :: _, [] => false
  | a :: as, b :: bs => a == b && isPrefixChars as bs

/-- Boolean substring test on character lists: `needle` occurs somewhere. -/
def containsChars (needle : List Char) : List Char → Bool
  | [] => isPrefixChars needle []
  | b :: bs => isPrefixChars needle (b :: bs) || containsChars needle bs

/-- JS `hay.includes(needle)`. -/
def strContains (hay needle : String) : Bool :=
  containsChars needle.data hay.data

/-- JS regex `/\x7b.*\x7d/s` applied by `String.prototype.match`: with the
greedy `.*` and the dot-all flag this matches the substring from the first
open brace to the last close brace following it, or nothing. -/
def extractBraceBlock (s : String) : Option String :=
  let fromBrace := s.data.dropWhile (fun c => !(c == '{'))
  if fromBrace.isEmpty then none
  else
    let upToClose := (fromBrace.reverse.dropWhile (fun c => !(c == '}'))).reverse
    if upToClose.isEmpty then none else some (String.mk upToClose)

/-- Whitespace characters removed by JS `String.prototype.trim` (the ASCII
ones; the sources only ever hold ASCII-ish paths). -/
def isJsWhitespace (c : Char) : Bool :=
  c == ' ' || c == '\t' || c == '\n' || c == '\r' || c == '\u000B' || c == '\u000C'

/-- JS `s.trim()` on the character list. -/
def trimChars (cs : List Char) : List Char :=
  ((cs.dropWhile isJsWhitespace).reverse.dropWhile isJsWhitespace).reverse

/-- JS `s.trim()`. -/
def trimStr (s : String) : String :=
  String.mk (trimChars s.data)

/-! ## Data model of the dispatcher (`generate-image.ts`) -/

/-- The observable shape of a thrown JS error as `generateImage`'s catch
block inspects it: `typeof error === 'object'`, `'status' in error`,
`'body' in error`, `error.status`, `error.body.detail` (present only when
`body` is truthy and `detail` a truthy string), `'message' in error`,
`error.message`, and `error instanceof Error`. -/
structure JsError where
  isObject : Bool
  hasStatus : Bool
  hasBody : Bool
  status : Int
  bodyDetail : Option String
  hasMessage : Bool
  message : String
  isErrorInstance : Bool
deriving Repr, DecidableEq

/-- `throw new Error(msg)`: an `Error` instance carries only a message. -/
def errorOf (msg : String) : JsError :=
  { isObject := true, hasStatus := false, hasBody := false, status := 0,
    bodyDetail := none, hasMessage := true, message := msg,
    isErrorInstance := true }

/-- An image returned by the generation API: a URL (further metadata is
opaque to the flow). -/
structure Image where
  url : String
deriving Repr, DecidableEq

/-- The payload of a completed `fal.subscribe` call: `result.data?.images`,
`result.data?.seed`, `result.requestId`, `result.data?.timings`,
`result.data?.has_nsfw_concepts`; each `data` field may be absent. -/
structure SubscribeData where
  images : Option (List Image)
  seed : Option Nat
  requestId : String
  timings : Option (List (String × Nat))
  has_nsfw_concepts : Option (List Bool)
deriving Repr, DecidableEq

/-- The discriminated result of `generateImage`: the success record or the
failure record with its message and optional error code. -/
inductive GenerateImageResponse where
  | success (images : List Image) (seed : Option Nat) (requestId : String)
      (timings : List (String × Nat)) (has_nsfw_concepts : List Bool)
  | failure (error : String) (errorCode : Option String)
deriving Repr, DecidableEq

/-- The browser state the dispatcher touches: the
`localStorage["fal-ai-active-key"]` slot, plus the private state of the
rotation policy (abstract here; `ApiKeyState` instantiates it). -/
structure ClientState (ρ : Type) where
  falAiActiveKey : Option String
  policyState : ρ
deriving Repr, DecidableEq

/-- `localStorage.getItem("fal-ai-active-key") || ""`. -/
def readActiveKeySlot {ρ : Type} (st : ClientState ρ) : String :=
  st.falAiActiveKey.getD ""

/-- Error message thrown when no API key is provided (line 18 of the
service). -/
def missingKeyMsg : String := "请先设置您的FAL.AI API密钥"

/-- Error message thrown when the response holds no images (line 49). -/
def noImagesMsg : String := "未生成图像"

/-- Fallback failure message when the caught value is not an `Error`
instance (line 152). -/
def genericFailMsg : String := "生成图像失败"

/-- Failure message accompanying the `ALL_KEYS_EXHAUSTED` code. -/
def allKeysExhaustedMsg : String := "所有API密钥余额不足，请添加新的API密钥或充值"

/-- The vendor fragment marking an exhausted-balance error. -/
def balanceFragment : String := "Exhausted balance"

/-- `apiError.body && apiError.body.detail && typeof apiError.body.detail
=== 'string' && apiError.body.detail.includes('Exhausted balance')`. -/
def detailHasFragment : Option String → Bool
  | some d => strContains d balanceFragment
  | none => false

/-- The structured-error guard of lines 73-81: `'status' in error && 'body'
in error`, then `status === 403`, then the body-detail fragment test (the
nested `if`s with no `else` are a conjunction, since every non-match falls
through to the same message checks). -/
def structGuard (e : JsError) : Bool :=
  e.hasStatus && e.hasBody && (e.status == 403) && detailHasFragment e.bodyDetail

/-- Line 105: `errorMessage.includes('403') &&
errorMessage.includes('Exhausted balance')`. -/
def balance403InMessage (e : JsError) : Bool :=
  strContains e.message "403" && strContains e.message balanceFragment

/-- Lines 122-146: scan the message for a brace block, `JSON.parse` it, and
test `errorJson.detail.includes('Exhausted balance')`. `parseDetail` stands
for the JS builtin `JSON.parse` composed with reading the `detail` field: it
returns the `detail` string when the block parses to an object carrying one,
and `none` when parsing throws (the catch of line 144) or `detail` is
missing or not a string. -/
def msgJsonDetect (parseDetail : String → Option String) (msg : String) : Bool :=
  match extractBraceBlock msg with
  | some block =>
    match parseDetail block with
    | some d => strContains d balanceFragment
    | none => false
  | none => false

/-- Rotation handling shared by the three signal branches (lines 84-96,
107-119, 128-141): call `handleBalanceExhaustedError()`; if it switched,
re-invoke the dispatcher with `localStorage.getItem("fal-ai-active-key") ||
""`; otherwise return the `ALL_KEYS_EXHAUSTED` failure. -/
def rotateAndRetry {ρ : Type}
    (policy : ClientState ρ → Bool × ClientState ρ)
    (retry : ClientState ρ → String → Option (GenerateImageResponse × ClientState ρ))
    (st : ClientState ρ) : Option (GenerateImageResponse × ClientState ρ) :=
  let res := policy st
  if res.1 then retry res.2 (readActiveKeySlot res.2)
  else some (.failure allKeysExhaustedMsg (some "ALL_KEYS_EXHAUSTED"), res.2)

/-- Line 150-153: the final return of the catch block. -/
def fallbackResult {ρ : Type} (e : JsError) (st : ClientState ρ) :
    Option (GenerateImageResponse × ClientState ρ) :=
  some (.failure (if e.isErrorInstance then e.message else genericFailMsg) none, st)

/-- Lines 103-147: the checks guarded by `'message' in error`; the second
signal, then the embedded-JSON third signal, then the final return. -/
def messageSignalChecks {ρ : Type}
    (policy : ClientState ρ → Bool × ClientState ρ)
    (parseDetail : String → Option String)
    (retry : ClientState ρ → String → Option (GenerateImageResponse × ClientState ρ))
    (st : ClientState ρ) (e : JsError) : Option (GenerateImageResponse × ClientState ρ) :=
  if e.hasMessage then
    if balance403InMessage e then rotateAndRetry policy retry st
    else if msgJsonDetect parseDetail e.message then rotateAndRetry policy retry st
    else fallbackResult e st
  else fallbackResult e st

/-- The catch block of `generateImage` (lines 66-153): the structured-error
first signal, then the message-based checks, then the final return. -/
def handleCatch {ρ : Type}
    (policy : ClientState ρ → Bool × ClientState ρ)
    (parseDetail : String → Option String)
    (retry : ClientState ρ → String → Option (GenerateImageResponse × ClientState ρ))
    (st : ClientState ρ) (e : JsError) : Option (GenerateImageResponse × ClientState ρ) :=
  if e.isObject then
    if structGuard e then rotateAndRetry policy retry st
    else messageSignalChecks policy parseDetail retry st e
  else fallbackResult e st

/-- `generateImage(model, input, apiKey)` of `generate-image.ts`.
`subscribe` is the outbound `fal.subscribe` call (configured with the
credential by `fal.config`), returning the completed payload or the thrown
error; `policy` is `handleBalanceExhaustedError` of the api-key-manager;
`parseDetail` is the `JSON.parse`-plus-`detail` reading of the third signal.
The fuel argument paces the self-retry recursion; `none` means the fuel ran
out before the code returned. -/
def generateImage {ρ μ ι : Type}
    (subscribe : μ → ι → String → Except JsError SubscribeData)
    (policy : ClientState ρ → Bool × ClientState ρ)
    (parseDetail : String → Option String)
    (model : μ) (input : ι) :
    Nat → ClientState ρ → String → Option (GenerateImageResponse × ClientState ρ)
  | 0, _, _ => none
  | fuel + 1, st, apiKey =>
    let retry := generateImage subscribe policy parseDetail model input fuel
    if apiKey = "" then
      handleCatch policy parseDetail retry st (errorOf missingKeyMsg)
    else
      match subscribe model input apiKey with
      | .error e => handleCatch policy parseDetail retry st e
      | .ok result =>
        match result.images with
        | none => handleCatch policy parseDetail retry st (errorOf noImagesMsg)
        | some imgs =>
          if imgs = [] then handleCatch policy parseDetail retry st (errorOf noImagesMsg)
          else
            some (.success imgs result.seed result.requestId
              (result.timings.getD []) (result.has_nsfw_concepts.getD []), st)

/-! ## The three detection signals as ordered detectors -/

/-- Signal (a): structured 403 error body whose detail holds the fragment. -/
def sigA (e : JsError) : Bool :=
  e.isObject && structGuard e

/-- Signal (b): plain message holding both a 403 marker and the fragment. -/
def sigB (e : JsError) : Bool :=
  e.isObject && e.hasMessage && balance403InMessage e

/-- Signal (c): a JSON object embedded in the message whose detail holds the
fragment. -/
def sigC (parseDetail : String → Option String) (e : JsError) : Bool :=
  e.isObject && e.hasMessage && msgJsonDetect parseDetail e.message

/-- The first signal that matches, in the fixed evaluation order of the
catch block. -/
def firstSignal (parseDetail : String → Option String) (e : JsError) : Option Nat :=
  if sigA e then some 1
  else if sigB e then some 2
  else if sigC parseDetail e then some 3
  else none

/-- Some balance-exhaustion signal matches. -/
def detectSignal (parseDetail : String → Option String) (e : JsError) : Bool :=
  (firstSignal parseDetail e).isSome

/-! ## The rotation policy, modelled from the spec -/

/-- The api-key-manager's private state: the ordered credential list and the
active index. -/
structure ApiKeyState where
  keys : List String
  activeIndex : Nat
deriving Repr, DecidableEq

/-- Modelled from the spec: the api-key-manager module (its source is not
among the files) exposes `handleBalanceExhaustedError`, which runs the
Rotation Policy's `advance()`: move the active index to `current + 1`; if
the new index is within bounds, mark it active — recording the new active
credential in the `fal-ai-active-key` storage slot the dispatcher reads —
and report success; if out of bounds, leave the state unchanged (so repeated
calls stay exhausted) and report failure. -/
def handleBalanceExhaustedError (st : ClientState ApiKeyState) :
    Bool × ClientState ApiKeyState :=
  let next := st.policyState.activeIndex + 1
  if h : next < st.policyState.keys.length then
    (true,
      { falAiActiveKey := some (st.policyState.keys.get ⟨next, h⟩),
        policyState := { st.policyState with activeIndex := next } })
  else (false, st)

/-! ## The UI flow (`ImageGenerator.vue`) -/

/-- One entry of the `loras` parameter array: `{ path, scale }`. -/
structure LoraEntry where
  path : String
  scale : Int
deriving Repr, DecidableEq

/-- The parameter bag as the component manipulates it: the fields the flow
touches are explicit; every other key is carried opaquely. An absent field
is `none`. -/
structure ParamBag where
  num_images : Option Int
  loras : Option (List LoraEntry)
  prompt : Option String
  other : List (String × String)
deriving Repr, DecidableEq

/-- `ensureValidNumImages` (lines 18-23 of the component): if `num_images`
is truthy and greater than 4, set it to 4; otherwise return the bag
unchanged. -/
def ensureValidNumImages (params : ParamBag) : ParamBag :=
  match params.num_images with
  | some n => if n ≠ 0 ∧ 4 < n then { params with num_images := some 4 } else params
  | none => params

/-- The loras clean-up of `handleGenerate` (lines 141-150): when `loras` is
an array, keep only the entries whose `path` is truthy (a `path` absent at
runtime reads as the empty string here) and non-blank after `trim`; when no
entry survives, delete the key. -/
def filterLoras (params : ParamBag) : ParamBag :=
  match params.loras with
  | some ls =>
    let kept := ls.filter (fun l => l.path != "" && trimStr l.path != "")
    if kept = [] then { params with loras := none }
    else { params with loras := some kept }
  | none => params

/-- The claim's removal criterion, in its own words: the path is missing,
empty, or whitespace-only. -/
def isBlankPath (l : LoraEntry) : Bool :=
  l.path.data.all isJsWhitespace

/-- The generation record `handleGenerate` persists for one image (lines
203-220): the nondeterministic `id` (uuid) and `timestamp` (`Date.now()`)
are external and omitted; the `output` object is flattened. -/
structure Generation where
  modelId : String
  modelName : String
  prompt : String
  parameters : ParamBag
  images : List Image
  timings : List (String × Nat)
  seed : Option Nat
  has_nsfw_concepts : List Bool
  userId : String
deriving Repr, DecidableEq

/-- The index-passing map of `successResponse.images.map((image, index) =>
...)`, building one record per image. -/
def saveRecordsAux (mk : Nat → Image → Generation) : Nat → List Image → List Generation
  | _, [] => []
  | i, img :: rest => mk i img :: saveRecordsAux mk (i + 1) rest

/-- Lines 202-224: the list of records handed to `saveGeneration`, one per
produced image; each record's `output.images` holds only the current image
and its nsfw flag is `has_nsfw_concepts[index] || false`. -/
def buildGenerationRecords (modelId modelName promptText : String)
    (params : ParamBag) (userId : String) (images : List Image)
    (timings : List (String × Nat)) (seed : Option Nat)
    (nsfw : List Bool) : List Generation :=
  saveRecordsAux
    (fun i img =>
      { modelId := modelId, modelName := modelName, prompt := promptText,
        parameters := params, images := [img], timings := timings,
        seed := seed, has_nsfw_concepts := [nsfw.getD i false],
        userId := userId })
    0 images

/-- What the user observes from `handleGenerate` after a successful
dispatch: the success toast, an error toast, or the scheduled self-retry of
the catch's balance branch. -/
inductive UiOutcome where
  | successToast (seed : Option Nat)
  | errorToast (message : String)
  | retryScheduled
deriving Repr, DecidableEq

/-- Default description of the generic error toast (line 263). -/
def checkKeyMsg : String := "请检查您的API密钥和网络连接"

/-- The outer catch of `handleGenerate` (lines 249-265): a 403 error whose
message mentions `balance` schedules a whole-action retry; anything else
shows the error toast with `error.message || default`. -/
def catchBranch (e : JsError) : UiOutcome :=
  if e.hasStatus && (e.status == 403) && e.hasMessage && strContains e.message "balance" then
    .retryScheduled
  else
    .errorToast (if e.hasMessage && e.message != "" then e.message else checkKeyMsg)

/-- The success branch of `handleGenerate` after dispatch returned success
(lines 201-231): `List.map` starts one `saveGeneration` per record before
any is awaited, then `await Promise.all(savePromises)`; when every save
fulfils, the success toast follows; when any save rejects, `Promise.all`
rejects and the outer catch handles the first rejection. `saveError g`
is the rejection of the save of record `g` (`none`: fulfilled). -/
def handleGenerateSuccessPath (saveError : Generation → Option JsError)
    (records : List Generation) (seed : Option Nat) : UiOutcome :=
  match records.filterMap (fun g => saveError g) with
  | [] => .successToast seed
  | e :: _ => catchBranch e

/-! ## Shared lemmas -/

/-- The nested catch block is the ordered short-circuit evaluation of the
three detectors: rotation exactly when some signal matches, the plain
failure otherwise. -/
theorem handleCatch_eq {ρ : Type}
    (policy : ClientState ρ → Bool × ClientState ρ)
    (parseDetail : String → Option String)
    (retry : ClientState ρ → String → Option (GenerateImageResponse × ClientState ρ))
    (st : ClientState ρ) (e : JsError) :
    handleCatch policy parseDetail retry st e =
      if detectSignal parseDetail e then rotateAndRetry policy retry st
      else fallbackResult e st := by
  unfold handleCatch messageSignalChecks detectSignal firstSignal sigA sigB sigC
  cases hObj : e.isObject <;>
    cases hSt : structGuard e <;>
      cases hM : e.hasMessage <;>
        cases h43 : balance403InMessage e <;>
          cases hJs : msgJsonDetect parseDetail e.message <;>
            simp [hObj, hSt, hM, h43, hJs]

/-- No signal matches a bare `Error` whose message holds no `403` marker
together with the fragment and no brace block (so `JSON.parse` is never
reached, whatever `parseDetail` does). -/
theorem detectSignal_plainError (parseDetail : String → Option String) (msg : String)
    (h43 : (strContains msg "403" && strContains msg balanceFragment) = false)
    (hE : extractBraceBlock msg = none) :
    detectSignal parseDetail (errorOf msg) = false := by
  simp [detectSignal, firstSignal, sigA, sigB, sigC, structGuard, errorOf,
    balance403InMessage, msgJsonDetect, h43, hE]

/-- The catch block turns the missing-key `Error` into the plain failure
carrying the missing-key message, with no error code and no rotation. -/
theorem handleCatch_missingKey {ρ : Type}
    (policy : ClientState ρ → Bool × ClientState ρ)
    (parseDetail : String → Option String)
    (retry : ClientState ρ → String → Option (GenerateImageResponse × ClientState ρ))
    (st : ClientState ρ) :
    handleCatch policy parseDetail retry st (errorOf missingKeyMsg) =
      some (.failure missingKeyMsg none, st) := by
  rw [handleCatch_eq, detectSignal_plainError parseDetail missingKeyMsg (by decide) (by decide)]
  simp [fallbackResult, errorOf]

/-- The catch block turns the no-images `Error` into the plain failure
carrying the no-images message, with no error code and no rotation. -/
theorem handleCatch_noImages {ρ : Type}
    (policy : ClientState ρ → Bool × ClientState ρ)
    (parseDetail : String → Option String)
    (retry : ClientState ρ → String → Option (GenerateImageResponse × ClientState ρ))
    (st : ClientState ρ) :
    handleCatch policy parseDetail retry st (errorOf noImagesMsg) =
      some (.failure noImagesMsg none, st) := by
  rw [handleCatch_eq, detectSignal_plainError parseDetail noImagesMsg (by decide) (by decide)]
  simp [fallbackResult, errorOf]

/-- One step of the dispatcher with fuel left. -/
theorem generateImage_succ {ρ μ ι : Type}
    (subscribe : μ → ι → String → Except JsError SubscribeData)
    (policy : ClientState ρ → Bool × ClientState ρ)
    (parseDetail : String → Option String)
    (model : μ) (input : ι) (fuel : Nat) (st : ClientState ρ) (apiKey : String) :
    generateImage subscribe policy parseDetail model input (fuel + 1) st apiKey =
      (let retry := generateImage subscribe policy parseDetail model input fuel
      if apiKey = "" then
        handleCatch policy parseDetail retry st (errorOf missingKeyMsg)
      else
        match subscribe model input apiKey with
        | .error e => handleCatch policy parseDetail retry st e
        | .ok result =>
          match result.images with
          | none => handleCatch policy parseDetail retry st (errorOf noImagesMsg)
          | some imgs =>
            if imgs = [] then handleCatch policy parseDetail retry st (errorOf noImagesMsg)
            else
              some (.success imgs result.seed result.requestId
                (result.timings.getD []) (result.has_nsfw_concepts.getD []), st)) := rfl

/-- The trimmed character list is empty exactly when every character is
whitespace. -/
theorem trimChars_eq_nil_iff (cs : List Char) :
    trimChars cs = [] ↔ cs.all isJsWhitespace = true := by
  unfold trimChars
  rw [List.reverse_eq_nil_iff, List.dropWhile_eq_nil_iff]
  simp only [List.mem_reverse, List.all_eq_true]
  constructor
  · intro h x hx
    have hsplit := List.takeWhile_append_dropWhile (p := isJsWhitespace) (l := cs)
    rw [← hsplit] at hx
    rcases List.mem_append.mp hx with hx | hx
    · exact List.mem_takeWhile_imp hx
    · exact h x hx
  · intro h x hx
    exact h x ((List.dropWhile_sublist (p := isJsWhitespace) (l := cs)).subset hx)

/-- The filter predicate of the source (`lora.path && lora.path.trim() !==
''`) keeps exactly the entries whose path is not blank in the claim's sense
(missing, empty, or whitespace-only). -/
theorem keepPred_eq_not_blank (l : LoraEntry) :
    (l.path != "" && trimStr l.path != "") = !(isBlankPath l) := by
  by_cases hb : l.path.data.all isJsWhitespace = true
  · have ht : trimStr l.path = "" := by
      unfold trimStr
      rw [(trimChars_eq_nil_iff _).mpr hb]
    simp [isBlankPath, hb, ht]
  · have ht : trimStr l.path ≠ "" := by
      intro h
      apply hb
      apply (trimChars_eq_nil_iff _).mp
      have hd := congrArg String.data h
      simpa [trimStr] using hd
    have hp : l.path ≠ "" := by
      intro h
      apply hb
      rw [h]
      decide
    simp [isBlankPath, hb, ht, hp]

/-- C4: if `num_images` is present and greater than 4, the clamped bag has
`num_images = 4` (and nothing else changed); if it is at most 4 or absent,
the bag is returned unchanged. -/
theorem claim4_num_images_clamped (params : ParamBag) :
    (∀ n : Int, params.num_images = some n → 4 < n →
      ensureValidNumImages params = { params with num_images := some 4 })
    ∧ (∀ n : Int, params.num_images = some n → n ≤ 4 →
      ensureValidNumImages params = params)
    ∧ (params.num_images = none → ensureValidNumImages params = params) := by
  refine ⟨?_, ?_, ?_⟩
  · intro n hn h4
    simp only [ensureValidNumImages, hn]
    rw [if_pos ⟨by omega, h4⟩]
  · intro n hn h4
    simp only [ensureValidNumImages, hn]
    rw [if_neg (by omega)]
  · intro hn
    simp only [ensureValidNumImages, hn]

/-- A bag asking for 7 images. -/
def bagSeven : ParamBag :=
  { num_images := some 7, loras := none, prompt := none, other := [] }

/-- C4 witness: clamping the concrete bag asking for 7 images yields 4. -/
theorem claim4_witness :
    bagSeven.num_images = some 7 ∧
      ensureValidNumImages bagSeven = { bagSeven with num_images := some 4 } :=
  ⟨rfl, (claim4_num_images_clamped bagSeven).1 7 rfl (by decide)⟩

/-- C10: when `loras` is an array, the dispatched value is the original list
with every blank-path entry removed (in order), and the key is deleted when
nothing survives; the kept list is a sublist of the original and holds
exactly the non-blank entries. -/
theorem claim10_loras_filtered (params : ParamBag) (ls : List LoraEntry)
    (h : params.loras = some ls) :
    ((filterLoras params).loras =
      if ls.filter (fun l => !(isBlankPath l)) = [] then none
      else some (ls.filter (fun l => !(isBlankPath l))))
    ∧ (ls.filter (fun l => !(isBlankPath l))).Sublist ls
    ∧ (∀ l : LoraEntry,
        l ∈ ls.filter (fun l => !(isBlankPath l)) ↔ l ∈ ls ∧ isBlankPath l = false) := by
  have hpred : (fun l : LoraEntry => l.path != "" && trimStr l.path != "")
      = (fun l => !(isBlankPath l)) := funext keepPred_eq_not_blank
  refine ⟨?_, List.filter_sublist _, ?_⟩
  · unfold filterLoras
    rw [h]
    simp only [hpred]
    by_cases hk : ls.filter (fun l => !(isBlankPath l)) = []
    · rw [if_pos hk, if_pos hk]
    · rw [if_neg hk, if_neg hk]
  · intro l
    simp [List.mem_filter]

/-- A lora entry with a whitespace-only path. -/
def loraBlank : LoraEntry := { path := "   ", scale := 1 }

/-- A lora entry with a real path. -/
def loraReal : LoraEntry := { path := "style.safetensors", scale := 1 }

/-- A bag holding one blank and one real lora entry. -/
def bagLoras : ParamBag :=
  { num_images := none, loras := some [loraBlank, loraReal], prompt := none, other := [] }

/-- C10 witness: on the concrete bag, the blank entry is dropped and the
real one kept. -/
theorem claim10_witness :
    bagLoras.loras = some [loraBlank, loraReal] ∧
      (filterLoras bagLoras).loras =
        (if [loraBlank, loraReal].filter (fun l => !(isBlankPath l)) = [] then none
        else some ([loraBlank, loraReal].filter (fun l => !(isBlankPath l)))) :=
  ⟨rfl, (claim10_loras_filtered bagLoras [loraBlank, loraReal] rfl).1⟩

/-! ## C2: the three detection signals -/

/-- Signal (a) exactly as claim C2 words it: a structured error body whose
detail contains the vendor fragment — with no requirement on the status
value. Formalised from the claim's wording, to be compared with the code's
`structGuard`, which additionally demands `status === 403`. -/
def claimedSigA (e : JsError) : Bool :=
  e.isObject && e.hasStatus && e.hasBody && detailHasFragment e.bodyDetail

/-- A structured error with status 402 whose detail carries the fragment but
whose message carries neither a 403 marker nor a brace block. -/
def e402Balance : JsError :=
  { isObject := true, hasStatus := true, hasBody := true, status := 402,
    bodyDetail := some "Exhausted balance: upgrade the plan",
    hasMessage := true, message := "Payment Required", isErrorInstance := true }

/-- A trivial rotation policy over an empty private state, for concrete
evaluations. -/
def neverSwitchPolicy (st : ClientState Unit) : Bool × ClientState Unit :=
  (false, st)

/-- A `parseDetail` that never parses, for concrete evaluations on messages
without a brace block (where it is never consulted anyway). -/
def parseNone : String → Option String := fun _ => none

/-- An empty browser state over the trivial policy state. -/
def clientStUnit : ClientState Unit := { falAiActiveKey := none, policyState := () }

/-- C2 counterexample: on a structured error body whose detail contains the
fragment but whose status is 402, the claim's signal (a) matches, yet the
dispatcher detects nothing and returns the plain failure without consulting
the rotation policy — the code's first signal additionally requires
status 403. -/
theorem claim2_counterexample :
    claimedSigA e402Balance = true
    ∧ detectSignal parseNone e402Balance = false
    ∧ generateImage (fun (_ : String) (_ : Nat) (_ : String) => Except.error e402Balance)
        neverSwitchPolicy parseNone "fal-ai/flux-pro/v1.1" 0 1 clientStUnit "key-1"
      = some (.failure "Payment Required" none, clientStUnit) := by
  refine ⟨by decide, by decide, by decide⟩

/-- C2 as amended: the dispatcher's catch block evaluates exactly the three
signals `sigA` (structured body with status 403 and the fragment), `sigB`
(message with 403 marker and fragment), `sigC` (embedded JSON detail with
the fragment) in this fixed order with short-circuit on first match;
rotation happens exactly when some signal matches, the plain failure
otherwise. -/
theorem claim2_signal_order {ρ : Type}
    (policy : ClientState ρ → Bool × ClientState ρ)
    (parseDetail : String → Option String)
    (retry : ClientState ρ → String → Option (GenerateImageResponse × ClientState ρ))
    (st : ClientState ρ) (e : JsError) :
    (handleCatch policy parseDetail retry st e =
      if detectSignal parseDetail e then rotateAndRetry policy retry st
      else fallbackResult e st)
    ∧ (sigA e = true → firstSignal parseDetail e = some 1)
    ∧ (sigA e = false → sigB e = true → firstSignal parseDetail e = some 2)
    ∧ (sigA e = false → sigB e = false → sigC parseDetail e = true →
        firstSignal parseDetail e = some 3)
    ∧ (detectSignal parseDetail e = true ↔
        (sigA e = true ∨ sigB e = true ∨ sigC parseDetail e = true)) := by
  refine ⟨handleCatch_eq policy parseDetail retry st e, ?_, ?_, ?_, ?_⟩
  · intro hA
    simp [firstSignal, hA]
  · intro hA hB
    simp [firstSignal, hA, hB]
  · intro hA hB hC
    simp [firstSignal, hA, hB, hC]
  · unfold detectSignal firstSignal
    by_cases hA : sigA e = true <;> by_cases hB : sigB e = true <;>
      by_cases hC : sigC parseDetail e = true <;>
        simp [hA, hB, hC]

/-- A structured 403 error whose body detail carries the fragment. -/
def e403Balance : JsError :=
  { isObject := true, hasStatus := true, hasBody := true, status := 403,
    bodyDetail := some "Exhausted balance", hasMessage := true,
    message := "Forbidden", isErrorInstance := true }

/-- C2 witness: on the concrete 403 structured error, the first signal is
signal (a) and the catch block rotates. -/
theorem claim2_witness :
    sigA e403Balance = true ∧ firstSignal parseNone e403Balance = some 1 :=
  ⟨by decide,
    (claim2_signal_order neverSwitchPolicy parseNone (fun _ _ => none) clientStUnit
      e403Balance).2.1 (by decide)⟩

/-! ## C5, C6: failures without rotation -/

/-- C5: on any failure matching no balance signal, the dispatcher returns a
failure carrying the best available error text (the error's message when it
is an `Error` instance, the generic text otherwise) with no error code, the
state untouched and no retry (the result does not depend on the remaining
fuel). -/
theorem claim5_plain_failure {ρ μ ι : Type}
    (subscribe : μ → ι → String → Except JsError SubscribeData)
    (policy : ClientState ρ → Bool × ClientState ρ)
    (parseDetail : String → Option String)
    (model : μ) (input : ι) (fuel : Nat) (st : ClientState ρ) (apiKey : String)
    (e : JsError)
    (hkey : apiKey ≠ "")
    (herr : subscribe model input apiKey = .error e)
    (hnosig : detectSignal parseDetail e = false) :
    generateImage subscribe policy parseDetail model input (fuel + 1) st apiKey
      = some (.failure (if e.isErrorInstance then e.message else genericFailMsg) none, st) := by
  rw [generateImage_succ]
  simp only [if_neg hkey, herr]
  rw [handleCatch_eq]
  simp [hnosig, fallbackResult]

/-- The transport error of the spec's scenario: a plain 500 with no balance
fragment. -/
def e500Transport : JsError :=
  { isObject := true, hasStatus := false, hasBody := false, status := 0,
    bodyDetail := none, hasMessage := true,
    message := "Request failed: 500 Internal Server Error", isErrorInstance := true }

/-- C5 witness: the concrete 500 transport error comes back verbatim as the
failure message, with no error code. -/
theorem claim5_witness :
    detectSignal parseNone e500Transport = false
    ∧ generateImage (fun (_ : String) (_ : Nat) (_ : String) => Except.error e500Transport)
        neverSwitchPolicy parseNone "fal-ai/flux-pro/v1.1" 0 (0 + 1) clientStUnit "key-1"
      = some (.failure
          (if e500Transport.isErrorInstance then e500Transport.message else genericFailMsg)
          none, clientStUnit) :=
  ⟨by decide,
    claim5_plain_failure (fun _ _ _ => Except.error e500Transport) neverSwitchPolicy
      parseNone "fal-ai/flux-pro/v1.1" 0 0 clientStUnit "key-1" e500Transport
      (by decide) rfl (by decide)⟩

/-- C6: when the completed call carries no images (absent or empty list),
the dispatcher returns the no-images failure with no error code, the state
untouched and no retry. -/
theorem claim6_empty_result {ρ μ ι : Type}
    (subscribe : μ → ι → String → Except JsError SubscribeData)
    (policy : ClientState ρ → Bool × ClientState ρ)
    (parseDetail : String → Option String)
    (model : μ) (input : ι) (fuel : Nat) (st : ClientState ρ) (apiKey : String)
    (r : SubscribeData)
    (hkey : apiKey ≠ "")
    (hok : subscribe model input apiKey = .ok r)
    (himgs : r.images = none ∨ r.images = some []) :
    generateImage subscribe policy parseDetail model input (fuel + 1) st apiKey
      = some (.failure noImagesMsg none, st) := by
  rw [generateImage_succ]
  simp only [if_neg hkey, hok]
  rcases himgs with h | h <;> simp only [h] <;> simp [handleCatch_noImages]

/-- A completed call whose payload holds an empty image list. -/
def emptyResult : SubscribeData :=
  { images := some [], seed := some 42, requestId := "req-1", timings := none,
    has_nsfw_concepts := none }

/-- C6 witness: the concrete empty payload yields the no-images failure. -/
theorem claim6_witness :
    emptyResult.images = some []
    ∧ generateImage (fun (_ : String) (_ : Nat) (_ : String) => Except.ok emptyResult)
        neverSwitchPolicy parseNone "fal-ai/flux-pro/v1.1" 0 (0 + 1) clientStUnit "key-1"
      = some (.failure noImagesMsg none, clientStUnit) :=
  ⟨rfl,
    claim6_empty_result (fun _ _ _ => Except.ok emptyResult) neverSwitchPolicy
      parseNone "fal-ai/flux-pro/v1.1" 0 0 clientStUnit "key-1" emptyResult
      (by decide) rfl (Or.inr rfl)⟩

/-! ## C9: the retry credential comes from the storage slot -/

/-- C9: whatever the rotation policy is, once a signal matched and the
policy reported a switch, the retry re-invokes the dispatcher with the
string currently stored in the `fal-ai-active-key` slot (the policy's
boolean reply carries no credential at all); and when that slot is empty at
retry time, the recursive call fails its missing-credential check and
returns the plain missing-key failure with no error code — not
`ALL_KEYS_EXHAUSTED`. -/
theorem claim9_retry_reads_slot {ρ μ ι : Type}
    (subscribe : μ → ι → String → Except JsError SubscribeData)
    (policy : ClientState ρ → Bool × ClientState ρ)
    (parseDetail : String → Option String)
    (model : μ) (input : ι) (fuel : Nat) (st st' : ClientState ρ) (apiKey : String)
    (e : JsError)
    (hkey : apiKey ≠ "")
    (herr : subscribe model input apiKey = .error e)
    (hsig : detectSignal parseDetail e = true)
    (hpol : policy st = (true, st')) :
    generateImage subscribe policy parseDetail model input (fuel + 1 + 1) st apiKey
      = generateImage subscribe policy parseDetail model input (fuel + 1) st'
          (readActiveKeySlot st')
    ∧ (readActiveKeySlot st' = "" →
      generateImage subscribe policy parseDetail model input (fuel + 1 + 1) st apiKey
        = some (.failure missingKeyMsg none, st')) := by
  have h1 : generateImage subscribe policy parseDetail model input (fuel + 1 + 1) st apiKey
      = generateImage subscribe policy parseDetail model input (fuel + 1) st'
          (readActiveKeySlot st') := by
    rw [generateImage_succ]
    simp only [if_neg hkey, herr]
    rw [handleCatch_eq]
    simp only [hsig, if_true]
    simp [rotateAndRetry, hpol]
  refine ⟨h1, fun hempty => ?_⟩
  rw [h1, hempty, generateImage_succ]
  rw [if_pos rfl, handleCatch_missingKey]

/-- A switching policy that leaves the storage slot empty, to exercise the
second half of C9. -/
def switchButClearSlot (_st : ClientState Unit) : Bool × ClientState Unit :=
  (true, { falAiActiveKey := none, policyState := () })

/-- C9 witness: with a policy that switches but leaves the slot empty, the
dispatcher's retry reads the empty slot and ends in the plain missing-key
failure. -/
theorem claim9_witness :
    generateImage (fun (_ : String) (_ : Nat) (_ : String) => Except.error e403Balance)
        switchButClearSlot parseNone "fal-ai/flux-pro/v1.1" 0 (0 + 1 + 1) clientStUnit "key-1"
      = some (.failure missingKeyMsg none, { falAiActiveKey := none, policyState := () }) :=
  (claim9_retry_reads_slot (fun _ _ _ => Except.error e403Balance) switchButClearSlot
      parseNone "fal-ai/flux-pro/v1.1" 0 0 clientStUnit
      { falAiActiveKey := none, policyState := () } "key-1" e403Balance
      (by decide) rfl (by decide) rfl).2 rfl

/-! ## C1: rotation and exhaustion under the spec-modelled policy -/

/-- C1: whenever a balance-exhaustion signal matches, the dispatcher runs
the rotation policy's advance. If advance yields a new active credential,
the dispatcher re-invokes itself with that credential and the same model and
input, the active index having strictly advanced by one (so each list
position is retried at most once); if no credential remains, it returns the
failure carrying the `ALL_KEYS_EXHAUSTED` code. -/
theorem claim1_advance_and_retry {μ ι : Type}
    (subscribe : μ → ι → String → Except JsError SubscribeData)
    (parseDetail : String → Option String)
    (model : μ) (input : ι) (fuel : Nat)
    (st : ClientState ApiKeyState) (apiKey : String) (e : JsError)
    (hkey : apiKey ≠ "")
    (herr : subscribe model input apiKey = .error e)
    (hsig : detectSignal parseDetail e = true) :
    (∀ (st' : ClientState ApiKeyState) (cred : String),
      handleBalanceExhaustedError st = (true, st') →
      st'.falAiActiveKey = some cred →
      st'.policyState.activeIndex = st.policyState.activeIndex + 1
      ∧ generateImage subscribe handleBalanceExhaustedError parseDetail model input
          (fuel + 1) st apiKey
        = generateImage subscribe handleBalanceExhaustedError parseDetail model input
            fuel st' cred)
    ∧ (handleBalanceExhaustedError st = (false, st) →
      generateImage subscribe handleBalanceExhaustedError parseDetail model input
          (fuel + 1) st apiKey
        = some (.failure allKeysExhaustedMsg (some "ALL_KEYS_EXHAUSTED"), st)) := by
  have hstep : generateImage subscribe handleBalanceExhaustedError parseDetail model input
      (fuel + 1) st apiKey
      = rotateAndRetry handleBalanceExhaustedError
          (generateImage subscribe handleBalanceExhaustedError parseDetail model input fuel)
          st := by
    rw [generateImage_succ]
    simp only [if_neg hkey, herr]
    rw [handleCatch_eq]
    simp [hsig]
  constructor
  · intro st' cred hpol hcred
    constructor
    · unfold handleBalanceExhaustedError at hpol
      by_cases hlt : st.policyState.activeIndex + 1 < st.policyState.keys.length
      · rw [dif_pos hlt, Prod.mk.injEq] at hpol
        rw [← hpol.2]
      · rw [dif_neg hlt, Prod.mk.injEq] at hpol
        exact absurd hpol.1.symm (by simp)
    · rw [hstep]
      simp only [rotateAndRetry, hpol]
      simp [readActiveKeySlot, hcred]
  · intro hpol
    rw [hstep]
    simp only [rotateAndRetry, hpol]
    simp

/-- A two-credential rotation state with the first credential active and
mirrored in the storage slot. -/
def twoKeysSt : ClientState ApiKeyState :=
  { falAiActiveKey := some "key-a",
    policyState := { keys := ["key-a", "key-b"], activeIndex := 0 } }

/-- The rotation state after advancing `twoKeysSt` once. -/
def twoKeysSt1 : ClientState ApiKeyState :=
  { falAiActiveKey := some "key-b",
    policyState := { keys := ["key-a", "key-b"], activeIndex := 1 } }

/-- C1 witness: on the concrete two-credential state, advance yields the
second credential and the dispatcher re-invokes itself with it. -/
theorem claim1_witness :
    twoKeysSt1.policyState.activeIndex = twoKeysSt.policyState.activeIndex + 1
    ∧ generateImage (fun (_ : String) (_ : Nat) (_ : String) => Except.error e403Balance)
        handleBalanceExhaustedError parseNone "fal-ai/flux-pro/v1.1" 0 (1 + 1)
        twoKeysSt "key-a"
      = generateImage (fun (_ : String) (_ : Nat) (_ : String) => Except.error e403Balance)
          handleBalanceExhaustedError parseNone "fal-ai/flux-pro/v1.1" 0 1
          twoKeysSt1 "key-b" :=
  (claim1_advance_and_retry (fun _ _ _ => Except.error e403Balance) parseNone
      "fal-ai/flux-pro/v1.1" 0 1 twoKeysSt "key-a" e403Balance
      (by decide) rfl (by decide)).1 twoKeysSt1 "key-b" (by decide) rfl

/-! ## C3: the dispatcher always returns a result -/

/-- C3: for every model, parameter bag, credential, browser state and every
behaviour of the outbound call, the dispatcher (under the spec-modelled
rotation policy) returns a result — every thrown error is caught and
converted — as soon as the fuel exceeds the number of credentials left to
rotate through, which bounds the recursion depth. -/
theorem claim3_always_returns {μ ι : Type}
    (subscribe : μ → ι → String → Except JsError SubscribeData)
    (parseDetail : String → Option String)
    (model : μ) (input : ι) (fuel : Nat)
    (st : ClientState ApiKeyState) (apiKey : String)
    (hfuel : st.policyState.keys.length - st.policyState.activeIndex < fuel) :
    (generateImage subscribe handleBalanceExhaustedError parseDetail model input
        fuel st apiKey).isSome = true := by
  induction fuel generalizing st apiKey with
  | zero => omega
  | succ n ih =>
    rw [generateImage_succ]
    by_cases hk : apiKey = ""
    · rw [if_pos hk, handleCatch_missingKey]
      rfl
    · rw [if_neg hk]
      cases hsub : subscribe model input apiKey with
      | ok r =>
        dsimp only
        cases hi : r.images with
        | none =>
          rw [handleCatch_noImages]
          rfl
        | some imgs =>
          cases imgs with
          | nil => simp [handleCatch_noImages]
          | cons a as => simp
      | error e =>
        dsimp only
        rw [handleCatch_eq]
        by_cases hd : detectSignal parseDetail e = true
        · simp only [hd, if_true]
          unfold rotateAndRetry handleBalanceExhaustedError
          by_cases hlt : st.policyState.activeIndex + 1 < st.policyState.keys.length
          · simp only [dif_pos hlt]
            apply ih
            dsimp only
            omega
          · simp only [dif_neg hlt]
            rfl
        · have hd' : detectSignal parseDetail e = false := by
            revert hd
            cases detectSignal parseDetail e <;> simp
          simp only [hd', Bool.false_eq_true, if_false, fallbackResult, Option.isSome_some]

/-- C3 witness: on the concrete two-credential state with an always-failing
outbound call, three units of fuel suffice for a result. -/
theorem claim3_witness :
    (generateImage (fun (_ : String) (_ : Nat) (_ : String) => Except.error e403Balance)
        handleBalanceExhaustedError parseNone "fal-ai/flux-pro/v1.1" 0 3
        twoKeysSt "key-a").isSome = true :=
  claim3_always_returns (fun _ _ _ => Except.error e403Balance) parseNone
    "fal-ai/flux-pro/v1.1" 0 3 twoKeysSt "key-a" (by decide)

/-! ## C7: one persistence record per image -/

/-- The index-passing map produces one record per image. -/
theorem saveRecordsAux_length (mk : Nat → Image → Generation) (i : Nat)
    (images : List Image) :
    (saveRecordsAux mk i images).length = images.length := by
  induction images generalizing i with
  | nil => rfl
  | cons a as ih => simp [saveRecordsAux, ih]

/-- The j-th record of the index-passing map is built from the j-th image. -/
theorem saveRecordsAux_getElem (mk : Nat → Image → Generation)
    (images : List Image) (i j : Nat) :
    (saveRecordsAux mk i images)[j]? = images[j]?.map (fun img => mk (i + j) img) := by
  induction images generalizing i j with
  | nil => simp [saveRecordsAux]
  | cons a as ih =>
    cases j with
    | zero => simp [saveRecordsAux]
    | succ m =>
      simp only [saveRecordsAux, List.getElem?_cons_succ, ih (i + 1) m]
      rw [show i + 1 + m = i + (m + 1) by omega]

/-- C7: on success with N images, the flow hands the persistence
collaborator exactly N records, one per image in order, and every record
holds exactly one image. -/
theorem claim7_record_per_image (modelId modelName promptText : String)
    (params : ParamBag) (userId : String) (images : List Image)
    (timings : List (String × Nat)) (seed : Option Nat) (nsfw : List Bool) :
    (buildGenerationRecords modelId modelName promptText params userId images
        timings seed nsfw).length = images.length
    ∧ (∀ g ∈ buildGenerationRecords modelId modelName promptText params userId images
        timings seed nsfw, g.images.length = 1)
    ∧ (∀ j : Nat,
        (buildGenerationRecords modelId modelName promptText params userId images
            timings seed nsfw)[j]?.map (fun g => g.images)
          = images[j]?.map (fun img => [img])) := by
  refine ⟨saveRecordsAux_length _ 0 images, ?_, ?_⟩
  · intro g hg
    rcases List.mem_iff_getElem?.mp hg with ⟨j, hj⟩
    unfold buildGenerationRecords at hj
    rw [saveRecordsAux_getElem] at hj
    cases himg : images[j]? with
    | none => rw [himg] at hj; simp at hj
    | some img =>
      rw [himg] at hj
      simp at hj
      subst hj
      rfl
  · intro j
    unfold buildGenerationRecords
    rw [saveRecordsAux_getElem]
    cases himg : images[j]? <;> simp [himg]

/-- A first concrete image. -/
def imgOne : Image := { url := "https://example.com/1.png" }

/-- A second concrete image. -/
def imgTwo : Image := { url := "https://example.com/2.png" }

/-- An empty parameter bag for the concrete scenarios. -/
def bagPlain : ParamBag :=
  { num_images := none, loras := none, prompt := none, other := [] }

/-- C7 witness: with the two concrete images, exactly two records are
built and the second record holds exactly the second image. -/
theorem claim7_witness :
    (buildGenerationRecords "fal-ai/flux-pro/v1.1" "FLUX Pro" "a cat" bagPlain "user-1"
        [imgOne, imgTwo] [] (some 7) []).length = ([imgOne, imgTwo] : List Image).length
    ∧ (buildGenerationRecords "fal-ai/flux-pro/v1.1" "FLUX Pro" "a cat" bagPlain "user-1"
        [imgOne, imgTwo] [] (some 7) [])[1]?.map (fun g => g.images)
      = ([imgOne, imgTwo] : List Image)[1]?.map (fun img => [img]) :=
  ⟨(claim7_record_per_image "fal-ai/flux-pro/v1.1" "FLUX Pro" "a cat" bagPlain "user-1"
      [imgOne, imgTwo] [] (some 7) []).1,
    (claim7_record_per_image "fal-ai/flux-pro/v1.1" "FLUX Pro" "a cat" bagPlain "user-1"
      [imgOne, imgTwo] [] (some 7) []).2.2 1⟩

/-! ## C8: the flow awaits persistence and surfaces its failures -/

/-- A list of saves produces no rejection exactly when every save fulfils. -/
theorem filterMapNilIff {α β : Type} (f : α → Option β) (l : List α) :
    l.filterMap f = [] ↔ ∀ a ∈ l, f a = none := by
  induction l with
  | nil => simp
  | cons a as ih =>
    cases hfa : f a with
    | none => simp [List.filterMap_cons, hfa, ih]
    | some b => simp [List.filterMap_cons, hfa]

/-- The catch outcome is never the success toast. -/
theorem catchBranch_ne_successToast (e : JsError) (seed : Option Nat) :
    catchBranch e ≠ .successToast seed := by
  unfold catchBranch
  split <;> simp

/-- A record persisting the first image. -/
def recOne : Generation :=
  { modelId := "fal-ai/flux-pro/v1.1", modelName := "FLUX Pro", prompt := "a cat",
    parameters := bagPlain, images := [imgOne], timings := [], seed := some 7,
    has_nsfw_concepts := [false], userId := "user-1" }

/-- A record persisting the second image. -/
def recTwo : Generation := { recOne with images := [imgTwo] }

/-- Saves that all fulfil. -/
def saveAllOk : Generation → Option JsError := fun _ => none

/-- Saves where the second record's save rejects. -/
def saveSecondFails : Generation → Option JsError :=
  fun g => if g = recTwo then some (errorOf "saveGeneration failed") else none

/-- C8 counterexample: the flow's observable outcome depends on the
persistence results — with both saves fulfilled it shows the success toast,
while with the second save rejected the awaited `Promise.all` rejects and
the outer catch shows the error toast. The claim's assertion that the flow
does not block on all persistence calls completing and that a partial
persistence failure is not surfaced is therefore false at this input. -/
theorem claim8_counterexample :
    handleGenerateSuccessPath saveAllOk [recOne, recTwo] (some 7)
      = .successToast (some 7)
    ∧ handleGenerateSuccessPath saveSecondFails [recOne, recTwo] (some 7)
      = .errorToast "saveGeneration failed"
    ∧ (UiOutcome.errorToast "saveGeneration failed") ≠ .successToast (some 7) := by
  refine ⟨by decide, by decide, by decide⟩

/-- C8 as amended: one save is issued per record, and the flow awaits them
all (`await Promise.all`) before reporting — it shows the success toast
exactly when every save fulfils, and when some save rejects the first
rejection reaches the outer catch handler, which surfaces it (as an error
toast, or as the scheduled whole-action retry for 403 balance errors). -/
theorem claim8_awaits_persistence (saveError : Generation → Option JsError)
    (records : List Generation) (seed : Option Nat) :
    (handleGenerateSuccessPath saveError records seed = .successToast seed ↔
      ∀ g ∈ records, saveError g = none)
    ∧ (∀ (e : JsError) (rest : List JsError),
        records.filterMap (fun g => saveError g) = e :: rest →
        handleGenerateSuccessPath saveError records seed = catchBranch e) := by
  constructor
  · unfold handleGenerateSuccessPath
    cases hf : records.filterMap (fun g => saveError g) with
    | nil =>
      simp only [true_iff, iff_true]
      exact (filterMapNilIff _ _).mp hf
    | cons e rest =>
      constructor
      · intro h
        exact absurd h (catchBranch_ne_successToast e seed)
      · intro hall
        exfalso
        have hnil : records.filterMap (fun g => saveError g) = [] :=
          (filterMapNilIff _ _).mpr hall
        rw [hf] at hnil
        exact List.cons_ne_nil e rest hnil
  · intro e rest hf
    unfold handleGenerateSuccessPath
    rw [hf]

/-- C8 witness: with both concrete saves fulfilled, the amended theorem
yields the success toast. -/
theorem claim8_witness :
    handleGenerateSuccessPath saveAllOk [recOne, recTwo] (some 7)
      = .successToast (some 7) :=
  (claim8_awaits_persistence saveAllOk [recOne, recTwo] (some 7)).1.mpr
    (by intro g hg; rfl)

end FalaiApp
